import Mathlib

/-!
# Verification of `full_data_wrapper.py` (DynamicPipeline-KGC)

Shallow embedding of the JSON-boundary adapter `full_data_wrapper.py`:
the model translators `dataframe_to_json` and `graph_to_json`, the SPARQL
query-capture interceptor, and the `main` orchestration (stdin parse,
temp-file staging, try/except/finally envelope emission and cleanup).

Python values that can appear in a pandas cell are modelled by `PyValue`;
RDF terms (rdflib `URIRef` / `BNode` / `Literal`) by `Term`.  Exceptions are
modelled with `Except String`; the process-level effects of `main` (documents
printed to stdout, exit status, temp-file lifecycle, which engine capability
points were invoked) are collected in a `RunResult` record.
-/

namespace FullDataWrapper

/-- A Python value that can sit in a pandas cell or JSON document.
`obj` stands for a Python object that `json.dumps` cannot serialize
(it raises `TypeError`); all other constructors are JSON-serializable. -/
inductive PyValue where
  | null
  | bool (b : Bool)
  | int (n : Int)
  | str (s : String)
  | obj (desc : String)
deriving DecidableEq, Repr

/-- Whether `json.dumps` accepts this value. -/
def PyValue.jsonSerializable : PyValue → Bool
  | .obj _ => false
  | _ => true

/-- An rdflib term: `URIRef`, `BNode`, or `Literal` (a literal optionally
carries a datatype IRI and/or a language tag, both may be absent). -/
inductive Term where
  | uri (s : String)
  | bnode (s : String)
  | literal (value : String) (datatype : Option String) (language : Option String)
deriving DecidableEq, Repr

/-- `str(term)` in rdflib: the URI text, the blank-node id, or the lexical form. -/
def Term.toStr : Term → String
  | .uri s => s
  | .bnode s => s
  | .literal v _ _ => v

/-- `hasattr(o, 'datatype')` in rdflib: only `Literal` objects define the
`datatype` attribute (even when its value is `None`); `URIRef` and `BNode`
do not. -/
def Term.hasDatatypeAttr : Term → Bool
  | .literal _ _ _ => true
  | _ => false

/-- Whether the term is a literal term at all (the structural notion). -/
def Term.isLiteral : Term → Bool
  | .literal _ _ _ => true
  | _ => false

/-- Spec-side notion: the term actually carries a datatype or language tag
(a plain literal such as `Literal("foo")` carries neither). -/
def Term.carriesDatatypeOrLanguage : Term → Bool
  | .literal _ dt lang => dt.isSome || lang.isSome
  | _ => false

/-- An RDF triple. -/
structure Triple where
  s : Term
  p : Term
  o : Term
deriving DecidableEq, Repr

/-- An rdflib `Graph`: its triples in the store's enumeration order, plus the
registered prefix → namespace-URI bindings. -/
structure Graph where
  triples : List Triple
  namespaces : List (String × String)
deriving DecidableEq, Repr

/-- One emitted triple record of `graph_to_json`. -/
structure TripleJSON where
  subject : String
  predicate : String
  object : String
  object_type : String
deriving DecidableEq, Repr

/-- The dict built for one triple in the `for s, p, o in graph` loop:
`{"subject": str(s), "predicate": str(p), "object": str(o),
  "object_type": "literal" if hasattr(o, 'datatype') else "uri"}`. -/
def tripleToJSON (t : Triple) : TripleJSON :=
  { subject := t.s.toStr
    predicate := t.p.toStr
    object := t.o.toStr
    object_type := if t.o.hasDatatypeAttr then "literal" else "uri" }

/-- The return value of `graph_to_json`. -/
structure GraphJSON where
  triples : List TripleJSON
  total_triples : Nat
  namespaces : List (String × String)
  limited_to : Option Nat
deriving DecidableEq, Repr

/-- Python truthiness of the `limit` argument: `None` and `0` are falsy. -/
def limitTruthy : Option Nat → Bool
  | none => false
  | some n => n != 0

/-- The loop body's break test `if limit and count >= limit: break`,
evaluated after the counter has been incremented to `count`. -/
def breakAfter (limit : Option Nat) (count : Nat) : Bool :=
  match limit with
  | none => false
  | some n => n != 0 && n ≤ count

/-- The `for s, p, o in graph` loop of `graph_to_json`: append the triple's
dict, increment the counter, and break when the (truthy) limit is reached. -/
def emitTriples (limit : Option Nat) : List Triple → Nat → List TripleJSON
  | [], _ => []
  | t :: rest, count =>
      tripleToJSON t ::
        (if breakAfter limit (count + 1) then [] else emitTriples limit rest (count + 1))

/-- `graph_to_json(graph, limit)`: emitted triples (possibly truncated),
`len(graph)` as `total_triples`, the namespace map, and
`limited_to = limit if limit else None`. -/
def graph_to_json (g : Graph) (limit : Option Nat) : GraphJSON :=
  { triples := emitTriples limit g.triples 0
    total_triples := g.triples.length
    namespaces := g.namespaces
    limited_to := if limitTruthy limit then limit else none }

/-- A pandas DataFrame as the engine returns it: the ordered column names,
the rows (each a list of cell values aligned with `columns`), and the
per-column dtype tags that pandas stores (`df.dtypes.astype(str)` yields
one string per column). -/
structure DataFrame where
  columns : List String
  rows : List (List PyValue)
  dtypes : List String
deriving DecidableEq, Repr

/-- The pandas well-formedness invariant: every row has one cell per
declared column, and there is one dtype tag per column. -/
def DataFrame.WF (df : DataFrame) : Prop :=
  (∀ r ∈ df.rows, r.length = df.columns.length) ∧ df.dtypes.length = df.columns.length

/-- `df.empty` in pandas: true when any axis has length 0. -/
def DataFrame.empty (df : DataFrame) : Bool :=
  df.rows.isEmpty || df.columns.isEmpty

/-- The return value of `dataframe_to_json`: a row of `data` is the dict
`{column ↦ cell}` rendered as an association list in column order;
`dtypes` is absent (`none`) in the empty case. -/
structure TableJSON where
  columns : List String
  data : List (List (String × PyValue))
  shape : List Nat
  dtypes : Option (List (String × String))
deriving DecidableEq, Repr

/-- `dataframe_to_json(df)`: `{columns: [], data: [], shape: [0,0]}` when
`df is None or df.empty`; otherwise columns, `df.to_dict('records')`
(one dict per row, keys are the column names), `list(df.shape)` and
`df.dtypes.astype(str).to_dict()`. -/
def dataframe_to_json : Option DataFrame → TableJSON
  | none => { columns := [], data := [], shape := [0, 0], dtypes := none }
  | some df =>
      if df.empty then
        { columns := [], data := [], shape := [0, 0], dtypes := none }
      else
        { columns := df.columns
          data := df.rows.map (fun r => df.columns.zip r)
          shape := [df.rows.length, df.columns.length]
          dtypes := some (df.columns.zip df.dtypes) }

/-- `row[key]` on a pandas row, as a total lookup: `some` of the cell in the
column named `key`, or `none` when the column is absent (Python raises
`KeyError` there). -/
def getCol (cols : List String) (row : List PyValue) (key : String) : Option PyValue :=
  (cols.zip row).lookup key

/-- One query record appended by the capturing wrapper:
`{"query": ..., "execution_time": ..., "result_count": ..., "timestamp": ...}`. -/
structure QueryRecord where
  query : String
  execution_time : Nat
  result_count : Nat
  timestamp : Nat
deriving DecidableEq, Repr

/-- A row of a SPARQL result sequence (abstract). -/
structure ResultRow where
  cells : List String
deriving DecidableEq, Repr

/-- One intercepted query call: the graph's original `query` method (a pure
function, since the claims assume queries have no side effects), the query
text, and the wall-clock readings the wrapper takes (elapsed duration and
capture timestamp). -/
structure TimedCall where
  original_query : String → List ResultRow
  q : String
  elapsed : Nat
  ts : Nat

/-- The wrapper `capturing_query`: execute the original query, materialize
the result sequence to count it, append a `QueryRecord` to the shared log,
then re-execute the original query and hand that fresh sequence to the
caller. -/
def capturing_query (c : TimedCall) (log : List QueryRecord) :
    List QueryRecord × List ResultRow :=
  let results_list := c.original_query c.q
  (log ++ [{ query := c.q
             execution_time := c.elapsed
             result_count := results_list.length
             timestamp := c.ts }],
   c.original_query c.q)

/-- A run's worth of intercepted query executions, in chronological order:
every loaded graph's wrapped `query` method appends to the one shared
`queries` list created by `capture_sparql_queries`, so calls against
different graphs interleave into a single log. -/
def runCaptured : List TimedCall → List QueryRecord → List QueryRecord
  | [], log => log
  | c :: cs, log => runCaptured cs (capturing_query c log).1

/-- The request document, already parsed from JSON (its fields are opaque to
the adapter and are only re-serialized into the temp config file). -/
structure InputData where
  raw : String
deriving DecidableEq, Repr

/-- The tuple `Symbolic_predictions.initialize` returns:
`(prefix, rulesfile, rdf_data, path, predictions_folder, constraints, kg,
pca_threshold)`.  Only carried through; `main` never inspects it beyond
passing pieces on. -/
structure InitCtx where
  prefix_ : String
  rulesfile : String
  rdf_data : String
  path : String
  predictions_folder : String
  constraints : String
  kg : String
  pca_threshold : Int
deriving DecidableEq, Repr

/-- One entry of the `new_triples` list: the three cell values taken
verbatim from a prediction-table row. -/
structure NewTriple where
  subject : PyValue
  predicate : PyValue
  object : PyValue
deriving DecidableEq, Repr

/-- The `for _, row in result_df.iterrows()` loop: for each row look up
`row['subject']`, `row['predicate']`, `row['object']` (in that order; a
missing column raises `KeyError`) and append the triple dict. -/
def rowsToTriples (cols : List String) : List (List PyValue) → Except String (List NewTriple)
  | [] => .ok []
  | r :: rest =>
      match getCol cols r "subject" with
      | none => .error "KeyError: 'subject'"
      | some s =>
          match getCol cols r "predicate" with
          | none => .error "KeyError: 'predicate'"
          | some p =>
              match getCol cols r "object" with
              | none => .error "KeyError: 'object'"
              | some o =>
                  match rowsToTriples cols rest with
                  | .error e => .error e
                  | .ok ts => .ok ({ subject := s, predicate := p, object := o } :: ts)

/-- The `new_triples` extraction of `main`: skipped (empty list) when
`result_df is None or result_df.empty`, else one triple per row. -/
def buildNewTriples : Option DataFrame → Except String (List NewTriple)
  | none => .ok []
  | some df => if df.empty then .ok [] else rowsToTriples df.columns df.rows

/-- The success envelope assembled by `main` (the wall-clock
`execution_time`/`timestamp` strings and the `output_files` paths are
boilerplate I/O values and are not modelled). -/
structure SuccessOutput where
  predictions_dataframe : TableJSON
  new_triples : List NewTriple
  initial_graph : GraphJSON
  enriched_graph : GraphJSON
  initial_triples : Nat
  enriched_triples : Nat
  predictions_added : Nat
  sparql_queries : List QueryRecord
  total_predictions : Nat
  queries_executed : Nat
  processing_successful : Bool
deriving DecidableEq, Repr

/-- Whether `json.dumps(output)` succeeds: every value copied verbatim from
the prediction table (into `predictions_dataframe.data` and `new_triples`)
must be JSON-serializable; every other field is built from strings and
numbers. -/
def outputSerializable (out : SuccessOutput) : Bool :=
  (out.predictions_dataframe.data.all fun r => r.all fun kv => kv.2.jsonSerializable) &&
  (out.new_triples.all fun t =>
    t.subject.jsonSerializable && t.predicate.jsonSerializable && t.object.jsonSerializable)

/-- An output-stream document: the success envelope `{success: true, ...}`
or the failure envelope `{success: false, error, traceback, timestamp}`. -/
inductive Envelope where
  | success (out : SuccessOutput)
  | failure (error : String)
deriving Repr

/-- Outcomes of the effectful steps of one invocation, fixed up front so
`main` is a pure function of them: the result of `json.load(sys.stdin)`,
of `Symbolic_predictions.initialize`, of `initial_graph.parse`, of
`Symbolic_predictions.process_rules`, and the query records the interceptor
appends while `process_rules` runs. -/
structure Env where
  stdin : Except String InputData
  initResult : Except String InitCtx
  parseInitial : Except String Graph
  processResult : Except String (Option DataFrame × Graph)
  queries : List QueryRecord

/-- The body of `main`'s `try` block, up to (but excluding) the
`json.dumps` call: runs the pipeline steps in source order, recording which
engine capability points were invoked (`load_graph` is only ever invoked
from inside `process_rules`, via the patched loader, never directly by
`main`). -/
def tryBody (env : Env) : List String × Except String SuccessOutput :=
  match env.initResult with
  | .error e => (["initialize"], .error e)
  | .ok _ctx =>
      match env.parseInitial with
      | .error e => (["initialize"], .error e)
      | .ok g0 =>
          let initial_graph_json := graph_to_json g0 (some 100)
          match env.processResult with
          | .error e => (["initialize", "process_rules"], .error e)
          | .ok (result_df, enriched_kg) =>
              let predictions_json := dataframe_to_json result_df
              let enriched_graph_json := graph_to_json enriched_kg (some 1000)
              match buildNewTriples result_df with
              | .error e => (["initialize", "process_rules"], .error e)
              | .ok new_triples =>
                  (["initialize", "process_rules"],
                   .ok { predictions_dataframe := predictions_json
                         new_triples := new_triples
                         initial_graph := initial_graph_json
                         enriched_graph := enriched_graph_json
                         initial_triples := initial_graph_json.total_triples
                         enriched_triples := enriched_graph_json.total_triples
                         predictions_added := new_triples.length
                         sparql_queries := env.queries
                         total_predictions := new_triples.length
                         queries_executed := env.queries.length
                         processing_successful := true })

/-- The observable effects of one invocation of `main`. -/
structure RunResult where
  envelopes : List Envelope
  exitCode : Nat
  tempCreated : Bool
  tempRemovals : Nat
  tempExistsAtExit : Bool
  engineCalls : List String

/-- The `finally` clause: `if os.path.exists(temp_config_path):
os.remove(temp_config_path)` — returns the file's existence after the
clause and the number of removals it performed. -/
def finallyCleanup (tempExists : Bool) : Bool × Nat :=
  if tempExists then (false, 1) else (tempExists, 0)

/-- `main()`.  `json.load(sys.stdin)` and the temp-file staging happen
*before* the `try`, so a parse failure propagates uncaught: no envelope is
printed (the interpreter writes a traceback to stderr and exits non-zero)
and no temp file was created.  Once staged, the `try/except/finally` runs:
on success the serialized envelope is printed and the process exits 0; any
exception in the body or in `json.dumps` reaches the `except`, which prints
the failure envelope and calls `sys.exit(1)`; the `finally` removes the temp
file on every such path. -/
def mainRun (env : Env) : RunResult :=
  match env.stdin with
  | .error _ =>
      { envelopes := []
        exitCode := 1
        tempCreated := false
        tempRemovals := 0
        tempExistsAtExit := false
        engineCalls := [] }
  | .ok _input =>
      let tempExists := true
      let (calls, body) := tryBody env
      match body with
      | .ok out =>
          if outputSerializable out then
            let (ex, rm) := finallyCleanup tempExists
            { envelopes := [.success out], exitCode := 0, tempCreated := true
              tempRemovals := rm, tempExistsAtExit := ex, engineCalls := calls }
          else
            let (ex, rm) := finallyCleanup tempExists
            { envelopes := [.failure "TypeError: Object is not JSON serializable"]
              exitCode := 1, tempCreated := true
              tempRemovals := rm, tempExistsAtExit := ex, engineCalls := calls }
      | .error e =>
          let (ex, rm) := finallyCleanup tempExists
          { envelopes := [.failure e], exitCode := 1, tempCreated := true
            tempRemovals := rm, tempExistsAtExit := ex, engineCalls := calls }

/-! ## Concrete instances used by counterexamples and witnesses -/

/-- A graph holding exactly one triple. -/
def gOne : Graph :=
  { triples := [{ s := .uri "http://example.org/s"
                  p := .uri "http://example.org/p"
                  o := .uri "http://example.org/o" }]
    namespaces := [("ex", "http://example.org/")] }

/-- A triple whose object is a plain literal: no datatype, no language tag. -/
def tPlainLit : Triple :=
  { s := .uri "http://example.org/s"
    p := .uri "http://example.org/p"
    o := .literal "foo" none none }

/-! ## Truncation behaviour of `graph_to_json` (C1) -/

theorem emitTriples_unlimited (limit : Option Nat) (hfalsy : limitTruthy limit = false)
    (ts : List Triple) (count : Nat) :
    emitTriples limit ts count = ts.map tripleToJSON := by
  induction ts generalizing count with
  | nil => rfl
  | cons t rest ih =>
      have hb : breakAfter limit (count + 1) = false := by
        cases limit with
        | none => rfl
        | some n =>
            simp only [limitTruthy] at hfalsy
            simp [breakAfter, hfalsy]
      simp [emitTriples, hb, ih]

theorem emitTriples_length_of_pos (n : Nat) (hn : 1 ≤ n) (ts : List Triple) :
    ∀ count, count < n →
      (emitTriples (some n) ts count).length = min (n - count) ts.length := by
  induction ts with
  | nil => intro count _; simp [emitTriples]
  | cons t rest ih =>
      intro count hcount
      by_cases hb : n ≤ count + 1
      · have hbreak : breakAfter (some n) (count + 1) = true := by
          simp [breakAfter]
          omega
        have hnc : n - count = 1 := by omega
        simp [emitTriples, hbreak, hnc]
      · have hbreak : breakAfter (some n) (count + 1) = false := by
          simp [breakAfter]
          omega
        have hrec := ih (count + 1) (by omega)
        have hsub : n - count = (n - (count + 1)) + 1 := by omega
        simp [emitTriples, hbreak, hrec, hsub, List.length_cons,
          Nat.succ_min_succ]

/-- C1 (amended).  `total_triples` always equals the store's full triple
count.  For an integer limit `n ≥ 1` the emitted `triples` list has length
`min n total_triples` and `limited_to` echoes `n`.  A limit of `0` — like
`None` — is falsy in the loop's `if limit and count >= limit` guard, so it
is treated as *unlimited*: every triple is emitted and `limited_to` is the
null marker, contrary to the claim's `min(limit, total)` and echo clauses
at `limit = 0`. -/
theorem c1_graph_to_json_truncation (g : Graph) (limit : Option Nat) :
    (graph_to_json g limit).total_triples = g.triples.length ∧
    (∀ n, limit = some n → 1 ≤ n →
      (graph_to_json g limit).triples.length = min n g.triples.length ∧
      (graph_to_json g limit).limited_to = some n) ∧
    ((limit = none ∨ limit = some 0) →
      (graph_to_json g limit).triples.length = g.triples.length ∧
      (graph_to_json g limit).limited_to = none) := by
  refine ⟨rfl, ?_, ?_⟩
  · intro n hlim hn
    subst hlim
    constructor
    · have h := emitTriples_length_of_pos n hn g.triples 0 (by omega)
      simpa [graph_to_json] using h
    · simp [graph_to_json, limitTruthy]
      omega
  · intro hcase
    have hfalsy : limitTruthy limit = false := by
      rcases hcase with h | h <;> subst h <;> rfl
    constructor
    · simp [graph_to_json, emitTriples_unlimited limit hfalsy]
    · simp [graph_to_json, hfalsy]

/-- Witness for C1: a one-triple graph with limit 1 keeps
`min 1 total = 1` triple and echoes the limit. -/
theorem c1_graph_to_json_truncation_witness :
    (graph_to_json gOne (some 1)).triples.length = min 1 gOne.triples.length ∧
    (graph_to_json gOne (some 1)).limited_to = some 1 :=
  (c1_graph_to_json_truncation gOne (some 1)).2.1 1 rfl (by decide)

/-- Counterexample to C1 as stated: with `limit = 0` on a one-triple graph
the code returns all 1 triple, not `min 0 1 = 0`, and `limited_to` is the
null marker instead of echoing `0`. -/
theorem c1_counterexample :
    ¬ ((graph_to_json gOne (some 0)).triples.length =
        min 0 (graph_to_json gOne (some 0)).total_triples ∧
       (graph_to_json gOne (some 0)).limited_to = some 0) := by
  decide

/-! ## Object classification of `graph_to_json` (C5) -/

/-- C5 (amended).  `object_type` is `"literal"` iff the object term is a
*literal term* — rdflib's `hasattr(o, 'datatype')` detects the `Literal`
class, which defines the attribute even when its value is `None` — not iff
the term actually carries a datatype or language tag; a URI or blank-node
object is classified `"uri"`. -/
theorem c5_object_type_classification (t : Triple) :
    (tripleToJSON t).object_type = (if t.o.isLiteral then "literal" else "uri") := by
  obtain ⟨s, p, o⟩ := t
  cases o <;> rfl

/-- Counterexample to C5 as stated: a plain literal object (`Literal("foo")`,
no datatype, no language) carries no discriminator yet is classified
`"literal"`. -/
theorem c5_counterexample :
    ¬ (((tripleToJSON tPlainLit).object_type = "literal") ↔
       tPlainLit.o.carriesDatatypeOrLanguage = true) := by
  decide

/-! ## Query interception (C6, C7) -/

/-- C6 (confirmed).  `capturing_query` appends exactly one record to the
log and returns the value of a second invocation of the graph's original
`query` method (source line `return original_query(query_object)`), i.e. a
fresh sequence rather than the one already consumed by `list(results)`;
since a side-effect-free query is a pure function here, that fresh
sequence's length equals the `result_count` just recorded. -/
theorem c6_reexecution_idempotent (c : TimedCall) (log : List QueryRecord) :
    ∃ r : QueryRecord,
      (capturing_query c log).1 = log ++ [r] ∧
      (capturing_query c log).2 = c.original_query c.q ∧
      r.result_count = ((capturing_query c log).2).length :=
  ⟨{ query := c.q
     execution_time := c.elapsed
     result_count := (c.original_query c.q).length
     timestamp := c.ts },
   rfl, rfl, rfl⟩

theorem runCaptured_eq_append (calls : List TimedCall) (log : List QueryRecord) :
    runCaptured calls log =
      log ++ calls.map (fun c =>
        { query := c.q
          execution_time := c.elapsed
          result_count := (c.original_query c.q).length
          timestamp := c.ts }) := by
  induction calls generalizing log with
  | nil => simp [runCaptured]
  | cons c cs ih =>
      simp [runCaptured, capturing_query, ih]

/-- C7 (confirmed).  Running the intercepted queries of one invocation in
chronological order (all instrumented graphs share the one `queries` list)
produces a log whose Nth record is exactly the record of the Nth executed
query, holding its query text, elapsed duration, result count and capture
timestamp. -/
theorem c7_capture_order_preserving (calls : List TimedCall) :
    runCaptured calls [] =
      calls.map (fun c =>
        { query := c.q
          execution_time := c.elapsed
          result_count := (c.original_query c.q).length
          timestamp := c.ts }) := by
  simpa using runCaptured_eq_append calls []

/-! ## `dataframe_to_json` (C9) -/

/-- A well-formed non-empty DataFrame used as witness input. -/
def dfEx : DataFrame :=
  { columns := ["subject", "predicate", "object"]
    rows := [[.str "http://example.org/a", .str "http://example.org/knows", .str "http://example.org/b"],
             [.str "http://example.org/b", .str "http://example.org/knows", .str "http://example.org/c"]]
    dtypes := ["object", "object", "object"] }

/-- C9 (confirmed).  `dataframe_to_json` returns the fixed empty shape for
an absent or empty table; for a non-empty well-formed table, `shape` is
`[row_count, column_count]` matching the lengths of `data` and `columns`,
each `data` row carries exactly the column names as keys (in column order),
and `dtypes` has a stringified type tag for every column. -/
theorem c9_dataframe_to_json_spec :
    dataframe_to_json none = { columns := [], data := [], shape := [0, 0], dtypes := none } ∧
    (∀ df : DataFrame, df.empty = true →
      dataframe_to_json (some df) =
        { columns := [], data := [], shape := [0, 0], dtypes := none }) ∧
    (∀ df : DataFrame, df.empty = false → df.WF →
      (dataframe_to_json (some df)).shape =
        [(dataframe_to_json (some df)).data.length,
         (dataframe_to_json (some df)).columns.length] ∧
      (∀ r ∈ (dataframe_to_json (some df)).data,
        r.map Prod.fst = (dataframe_to_json (some df)).columns) ∧
      (∃ ds, (dataframe_to_json (some df)).dtypes = some ds ∧
        ∀ c ∈ (dataframe_to_json (some df)).columns, ∃ tag, (c, tag) ∈ ds)) := by
  refine ⟨rfl, ?_, ?_⟩
  · intro df hempty
    simp [dataframe_to_json, hempty]
  · intro df hempty hwf
    obtain ⟨hrows, hdt⟩ := hwf
    constructor
    · simp [dataframe_to_json, hempty]
    constructor
    · intro r hr
      simp only [dataframe_to_json, hempty, Bool.false_eq_true, if_false,
        List.mem_map] at hr ⊢
      obtain ⟨row, hrow, hzip⟩ := hr
      subst hzip
      exact List.map_fst_zip df.columns row (le_of_eq (hrows row hrow).symm)
    · refine ⟨df.columns.zip df.dtypes, by simp [dataframe_to_json, hempty], ?_⟩
      intro c hc
      simp only [dataframe_to_json, hempty, Bool.false_eq_true, if_false] at hc
      have hkeys : (df.columns.zip df.dtypes).map Prod.fst = df.columns :=
        List.map_fst_zip df.columns df.dtypes (le_of_eq hdt.symm)
      rw [← hkeys] at hc
      obtain ⟨⟨c1, tag⟩, hmem, hfst⟩ := List.mem_map.mp hc
      have hc1 : c1 = c := hfst
      subst hc1
      exact ⟨tag, hmem⟩

/-- Witness for C9: the non-empty branch instantiated at a concrete
two-row table. -/
theorem c9_dataframe_to_json_spec_witness :
    (dataframe_to_json (some dfEx)).shape =
      [(dataframe_to_json (some dfEx)).data.length,
       (dataframe_to_json (some dfEx)).columns.length] ∧
    (∀ r ∈ (dataframe_to_json (some dfEx)).data,
      r.map Prod.fst = (dataframe_to_json (some dfEx)).columns) ∧
    (∃ ds, (dataframe_to_json (some dfEx)).dtypes = some ds ∧
      ∀ c ∈ (dataframe_to_json (some dfEx)).columns, ∃ tag, (c, tag) ∈ ds) :=
  c9_dataframe_to_json_spec.2.2 dfEx (by decide)
    ⟨by decide, by decide⟩

/-! ## `main` orchestration (C2, C3, C4) -/

/-- An invocation whose input parses but whose engine is unavailable
(`initialize` raises). -/
def envEngineDown : Env :=
  { stdin := .ok { raw := "{}" }
    initResult := .error "ModuleNotFoundError: initialize failed"
    parseInitial := .error "unreached"
    processResult := .error "unreached"
    queries := [] }

/-- An invocation whose input document does not parse. -/
def envBadInput : Env :=
  { stdin := .error "json.decoder.JSONDecodeError: Expecting value: line 1 column 1 (char 0)"
    initResult := .error "unreached"
    parseInitial := .error "unreached"
    processResult := .error "unreached"
    queries := [] }

/-- C2 (amended).  When the input document parses, exactly one envelope is
written — success or failure, never a mix — and the exit status is zero
exactly when it is the success envelope.  When the input does not parse,
the `json.load` exception is raised *before* the `try`, so it propagates
uncaught: no envelope at all is written and the interpreter exits
non-zero. -/
theorem c2_envelope_and_exit (env : Env) :
    (∀ input, env.stdin = .ok input →
      ∃ e, (mainRun env).envelopes = [e] ∧
        ((mainRun env).exitCode = 0 ↔ ∃ out, e = Envelope.success out)) ∧
    (∀ err, env.stdin = .error err →
      (mainRun env).envelopes = [] ∧ (mainRun env).exitCode ≠ 0) := by
  constructor
  · intro input hin
    unfold mainRun
    rw [hin]
    rcases htb : tryBody env with ⟨calls, body⟩
    cases body with
    | ok out =>
        by_cases hser : outputSerializable out = true
        · exact ⟨Envelope.success out, by simp [hser, finallyCleanup], by simp [hser, finallyCleanup]⟩
        · refine ⟨Envelope.failure "TypeError: Object is not JSON serializable",
            by simp [hser, finallyCleanup], ?_⟩
          simp only [hser, Bool.false_eq_true, if_false]
          constructor
          · intro h; exact absurd h (by simp [finallyCleanup])
          · rintro ⟨out', hout⟩; cases hout
    | error e =>
        refine ⟨Envelope.failure e, by simp [finallyCleanup], ?_⟩
        constructor
        · intro h; exact absurd h (by simp [finallyCleanup])
        · rintro ⟨out', hout⟩; cases hout
  · intro err herr
    unfold mainRun
    rw [herr]
    exact ⟨rfl, by simp⟩

/-- Witness for C2: an invocation with parsable input `{}` and a failing
engine yields exactly one (failure) envelope and a non-zero exit. -/
theorem c2_envelope_and_exit_witness :
    ∃ e, (mainRun envEngineDown).envelopes = [e] ∧
      ((mainRun envEngineDown).exitCode = 0 ↔ ∃ out, e = Envelope.success out) :=
  (c2_envelope_and_exit envEngineDown).1 { raw := "{}" } rfl

/-- Counterexample to C2 as stated: an invocation with unparsable input
produces zero envelopes, not exactly one. -/
theorem c2_counterexample :
    ¬ (∃ e, (mainRun envBadInput).envelopes = [e]) := by
  rintro ⟨e, he⟩
  simp [mainRun, envBadInput] at he

/-- C3 (amended).  On malformed or unparsable input no engine capability
(`initialize`, `load_graph`, `process_rules`) is ever invoked — `load_graph`
is only reachable from inside `process_rules` — but, contrary to the claim,
no failure envelope is emitted either: `json.load(sys.stdin)` sits before
the `try`, so the parse error propagates uncaught and the process exits
non-zero with an empty output stream. -/
theorem c3_no_engine_call_on_bad_input (env : Env) (err : String)
    (h : env.stdin = .error err) :
    (mainRun env).engineCalls = [] ∧
    (mainRun env).envelopes = [] ∧
    (mainRun env).exitCode ≠ 0 := by
  unfold mainRun
  rw [h]
  exact ⟨rfl, rfl, by simp⟩

/-- Witness for C3 at a concrete unparsable-input invocation. -/
theorem c3_no_engine_call_on_bad_input_witness :
    (mainRun envBadInput).engineCalls = [] ∧
    (mainRun envBadInput).envelopes = [] ∧
    (mainRun envBadInput).exitCode ≠ 0 :=
  c3_no_engine_call_on_bad_input envBadInput
    "json.decoder.JSONDecodeError: Expecting value: line 1 column 1 (char 0)" rfl

/-- Counterexample to C3 as stated: on unparsable input no failure envelope
is emitted (the output stream stays empty). -/
theorem c3_counterexample :
    ¬ (∃ msg, Envelope.failure msg ∈ (mainRun envBadInput).envelopes) := by
  rintro ⟨msg, hmem⟩
  simp [mainRun, envBadInput] at hmem

/-- C4 (confirmed).  Once the temp config file is staged, every exit path
of the `try/except/finally` — success, an exception in the body, or a
`json.dumps` failure — runs the `finally` clause exactly once, which
removes the still-existing temp file, so it does not exist after the
process exits and was removed exactly once. -/
theorem c4_temp_cleanup (env : Env) (input : InputData)
    (h : env.stdin = .ok input) :
    (mainRun env).tempCreated = true ∧
    (mainRun env).tempRemovals = 1 ∧
    (mainRun env).tempExistsAtExit = false := by
  unfold mainRun
  rw [h]
  rcases htb : tryBody env with ⟨calls, body⟩
  cases body with
  | ok out =>
      by_cases hser : outputSerializable out = true <;>
        simp [hser, finallyCleanup]
  | error e => simp [finallyCleanup]

/-- Witness for C4: the staged temp file of a failing run is removed
exactly once and is gone at exit. -/
theorem c4_temp_cleanup_witness :
    (mainRun envEngineDown).tempCreated = true ∧
    (mainRun envEngineDown).tempRemovals = 1 ∧
    (mainRun envEngineDown).tempExistsAtExit = false :=
  c4_temp_cleanup envEngineDown { raw := "{}" } rfl

/-! ## `new_triples` extraction (C8) and serialization failure (C10) -/

theorem lookup_mem {l : List (String × PyValue)} {k : String} {v : PyValue}
    (h : l.lookup k = some v) : (k, v) ∈ l := by
  induction l with
  | nil => simp [List.lookup] at h
  | cons p rest ih =>
      rcases p with ⟨a, b⟩
      rw [List.lookup] at h
      by_cases hk : k = a
      · subst hk
        simp at h
        subst h
        exact List.mem_cons_self _ _
      · have hbeq : (k == a) = false := beq_false_of_ne hk
        rw [hbeq] at h
        exact List.mem_cons_of_mem _ (ih h)

theorem getCol_mem {cols : List String} {r : List PyValue} {k : String} {v : PyValue}
    (h : getCol cols r k = some v) : v ∈ r :=
  (List.of_mem_zip (lookup_mem h)).2

theorem getCol_isSome {cols : List String} {r : List PyValue} {k : String}
    (hk : k ∈ cols) (hl : cols.length ≤ r.length) :
    ∃ v, getCol cols r k = some v := by
  induction cols generalizing r with
  | nil => cases hk
  | cons c cs ih =>
      cases r with
      | nil => simp at hl
      | cons x xs =>
          by_cases hkc : k = c
          · subst hkc
            exact ⟨x, by simp [getCol, List.lookup]⟩
          · have hbeq : (k == c) = false := beq_false_of_ne hkc
            rcases List.mem_cons.mp hk with h | h
            · exact absurd h hkc
            · obtain ⟨v, hv⟩ := ih h (by simpa using Nat.le_of_succ_le_succ hl)
              exact ⟨v, by simp [getCol, List.lookup, hbeq] at hv ⊢; exact hv⟩

theorem rowsToTriples_ok (cols : List String)
    (hs : "subject" ∈ cols) (hp : "predicate" ∈ cols) (ho : "object" ∈ cols) :
    ∀ rows : List (List PyValue), (∀ r ∈ rows, cols.length ≤ r.length) →
      ∃ ts, rowsToTriples cols rows = .ok ts ∧ ts.length = rows.length ∧
        (∀ i (hi : i < rows.length) (ht : i < ts.length),
          getCol cols (rows.get ⟨i, hi⟩) "subject" = some ((ts.get ⟨i, ht⟩).subject) ∧
          getCol cols (rows.get ⟨i, hi⟩) "predicate" = some ((ts.get ⟨i, ht⟩).predicate) ∧
          getCol cols (rows.get ⟨i, hi⟩) "object" = some ((ts.get ⟨i, ht⟩).object)) ∧
        (∀ t ∈ ts, ∃ r ∈ rows, t.subject ∈ r ∧ t.predicate ∈ r ∧ t.object ∈ r) := by
  intro rows
  induction rows with
  | nil =>
      intro _
      exact ⟨[], rfl, rfl, fun i hi => absurd hi (by simp), by simp⟩
  | cons r rest ih =>
      intro hlen
      have hr : cols.length ≤ r.length := hlen r (List.mem_cons_self _ _)
      obtain ⟨sv, hsv⟩ := getCol_isSome hs hr
      obtain ⟨pv, hpv⟩ := getCol_isSome hp hr
      obtain ⟨ov, hov⟩ := getCol_isSome ho hr
      obtain ⟨ts, hts, hlen2, hidx, hmem⟩ :=
        ih (fun r2 hr2 => hlen r2 (List.mem_cons_of_mem _ hr2))
      refine ⟨{ subject := sv, predicate := pv, object := ov } :: ts, ?_, by simp [hlen2], ?_, ?_⟩
      · simp only [rowsToTriples, getCol] at hsv hpv hov ⊢
        rw [hsv, hpv, hov, hts]
      · intro i hi ht
        cases i with
        | zero => exact ⟨hsv, hpv, hov⟩
        | succ j =>
            have hj : j < rest.length := by simpa using hi
            have hjt : j < ts.length := by simpa using ht
            exact hidx j hj hjt
      · intro t htmem
        rcases List.mem_cons.mp htmem with h | h
        · subst h
          exact ⟨r, List.mem_cons_self _ _, getCol_mem hsv, getCol_mem hpv, getCol_mem hov⟩
        · obtain ⟨r2, hr2, hmems⟩ := hmem t h
          exact ⟨r2, List.mem_cons_of_mem _ hr2, hmems⟩

theorem dataframe_to_json_serializable (df : DataFrame)
    (hser : ∀ r ∈ df.rows, ∀ v ∈ r, v.jsonSerializable = true) :
    ((dataframe_to_json (some df)).data.all fun r =>
      r.all fun kv => kv.2.jsonSerializable) = true := by
  by_cases hempty : df.empty = true
  · simp [dataframe_to_json, hempty]
  · rw [List.all_eq_true]
    intro r hr
    rw [List.all_eq_true]
    intro kv hkv
    simp only [dataframe_to_json, hempty, Bool.false_eq_true, if_false,
      List.mem_map] at hr
    obtain ⟨row, hrow, hzip⟩ := hr
    subst hzip
    rcases kv with ⟨k, v⟩
    exact hser row hrow v (List.of_mem_zip hkv).2

/-- C8 (confirmed).  In a run that reaches the success envelope, with a
prediction table whose columns include `subject`, `predicate` and `object`
(rows well-formed, all cell values JSON-serializable), the envelope's
`new_triples` has exactly one entry per table row, in row order, each entry
taking that row's values at the three columns, and
`summary.total_predictions` equals the row count. -/
theorem c8_new_triples_from_table (env : Env) (input : InputData) (ctx : InitCtx)
    (g0 : Graph) (df : DataFrame) (g1 : Graph)
    (hin : env.stdin = .ok input)
    (hinit : env.initResult = .ok ctx)
    (hparse : env.parseInitial = .ok g0)
    (hproc : env.processResult = .ok (some df, g1))
    (hs : "subject" ∈ df.columns) (hp : "predicate" ∈ df.columns)
    (ho : "object" ∈ df.columns)
    (hwf : ∀ r ∈ df.rows, r.length = df.columns.length)
    (hser : ∀ r ∈ df.rows, ∀ v ∈ r, v.jsonSerializable = true) :
    ∃ out, (mainRun env).envelopes = [Envelope.success out] ∧
      out.new_triples.length = df.rows.length ∧
      out.total_predictions = df.rows.length ∧
      ∀ i (hi : i < df.rows.length) (ht : i < out.new_triples.length),
        getCol df.columns (df.rows.get ⟨i, hi⟩) "subject" =
          some ((out.new_triples.get ⟨i, ht⟩).subject) ∧
        getCol df.columns (df.rows.get ⟨i, hi⟩) "predicate" =
          some ((out.new_triples.get ⟨i, ht⟩).predicate) ∧
        getCol df.columns (df.rows.get ⟨i, hi⟩) "object" =
          some ((out.new_triples.get ⟨i, ht⟩).object) := by
  obtain ⟨nts, hnts, hlen, hidx, hmemrows⟩ :=
    rowsToTriples_ok df.columns hs hp ho df.rows
      (fun r hr => le_of_eq (hwf r hr).symm)
  have hbuild : buildNewTriples (some df) = .ok nts := by
    by_cases hempty : df.empty = true
    · have hrows : df.rows = [] := by
        have hcols : df.columns ≠ [] := by
          intro hnil; rw [hnil] at hs; cases hs
        simp only [DataFrame.empty, Bool.or_eq_true, List.isEmpty_iff] at hempty
        rcases hempty with h | h
        · exact h
        · exact absurd h hcols
      have hnil : nts = [] := by
        have := hlen
        rw [hrows] at this
        exact List.length_eq_zero.mp this
      simp [buildNewTriples, hempty, hnil]
    · simp only [buildNewTriples, hempty, Bool.false_eq_true, if_false]
      exact hnts
  refine ⟨{ predictions_dataframe := dataframe_to_json (some df)
            new_triples := nts
            initial_graph := graph_to_json g0 (some 100)
            enriched_graph := graph_to_json g1 (some 1000)
            initial_triples := (graph_to_json g0 (some 100)).total_triples
            enriched_triples := (graph_to_json g1 (some 1000)).total_triples
            predictions_added := nts.length
            sparql_queries := env.queries
            total_predictions := nts.length
            queries_executed := env.queries.length
            processing_successful := true }, ?_, hlen, hlen, hidx⟩
  have htry : tryBody env =
      (["initialize", "process_rules"],
       .ok { predictions_dataframe := dataframe_to_json (some df)
             new_triples := nts
             initial_graph := graph_to_json g0 (some 100)
             enriched_graph := graph_to_json g1 (some 1000)
             initial_triples := (graph_to_json g0 (some 100)).total_triples
             enriched_triples := (graph_to_json g1 (some 1000)).total_triples
             predictions_added := nts.length
             sparql_queries := env.queries
             total_predictions := nts.length
             queries_executed := env.queries.length
             processing_successful := true }) := by
    simp only [tryBody, hinit, hparse, hproc, hbuild]
  have hserOut : outputSerializable
      { predictions_dataframe := dataframe_to_json (some df)
        new_triples := nts
        initial_graph := graph_to_json g0 (some 100)
        enriched_graph := graph_to_json g1 (some 1000)
        initial_triples := (graph_to_json g0 (some 100)).total_triples
        enriched_triples := (graph_to_json g1 (some 1000)).total_triples
        predictions_added := nts.length
        sparql_queries := env.queries
        total_predictions := nts.length
        queries_executed := env.queries.length
        processing_successful := true } = true := by
    simp only [outputSerializable, Bool.and_eq_true]
    refine ⟨dataframe_to_json_serializable df hser, ?_⟩
    rw [List.all_eq_true]
    intro t ht
    obtain ⟨r, hr, hts, htp, hto⟩ := hmemrows t ht
    simp only [Bool.and_eq_true]
    exact ⟨⟨hser r hr _ hts, hser r hr _ htp⟩, hser r hr _ hto⟩
  simp only [mainRun, hin, htry, hserOut, if_true]

/-- A concrete engine context for witness runs. -/
def ctxEx : InitCtx :=
  { prefix_ := "http://example.org/"
    rulesfile := "rules.txt"
    rdf_data := "data.nt"
    path := "."
    predictions_folder := "predictions"
    constraints := "constraints.json"
    kg := "KG"
    pca_threshold := 0 }

/-- A fully successful invocation: parsable input, working engine, a
two-row prediction table of plain strings. -/
def envSuccess : Env :=
  { stdin := .ok { raw := "{}" }
    initResult := .ok ctxEx
    parseInitial := .ok gOne
    processResult := .ok (some dfEx, gOne)
    queries := [] }

/-- Witness for C8: the success envelope of a concrete two-row run carries
two `new_triples` matching the rows and `total_predictions = 2`. -/
theorem c8_new_triples_from_table_witness :
    ∃ out, (mainRun envSuccess).envelopes = [Envelope.success out] ∧
      out.new_triples.length = dfEx.rows.length ∧
      out.total_predictions = dfEx.rows.length ∧
      ∀ i (hi : i < dfEx.rows.length) (ht : i < out.new_triples.length),
        getCol dfEx.columns (dfEx.rows.get ⟨i, hi⟩) "subject" =
          some ((out.new_triples.get ⟨i, ht⟩).subject) ∧
        getCol dfEx.columns (dfEx.rows.get ⟨i, hi⟩) "predicate" =
          some ((out.new_triples.get ⟨i, ht⟩).predicate) ∧
        getCol dfEx.columns (dfEx.rows.get ⟨i, hi⟩) "object" =
          some ((out.new_triples.get ⟨i, ht⟩).object) :=
  c8_new_triples_from_table envSuccess { raw := "{}" } ctxEx gOne dfEx gOne
    rfl rfl rfl rfl (by decide) (by decide) (by decide) (by decide) (by decide)

/-- C10 (confirmed).  When the try body succeeds but `json.dumps` of the
assembled success envelope fails (a table value copied verbatim is not
JSON-serializable), no success document — partial or whole — reaches the
output stream: `json.dumps` raises before anything is printed, the
`except` block emits the single failure envelope, and the process exits
non-zero. -/
theorem c10_serialization_failure (env : Env) (input : InputData)
    (out : SuccessOutput)
    (hin : env.stdin = .ok input)
    (hbody : (tryBody env).2 = .ok out)
    (hser : outputSerializable out = false) :
    (mainRun env).envelopes =
      [Envelope.failure "TypeError: Object is not JSON serializable"] ∧
    (mainRun env).exitCode ≠ 0 ∧
    ∀ o, Envelope.success o ∉ (mainRun env).envelopes := by
  unfold mainRun
  rw [hin]
  rcases htb : tryBody env with ⟨calls, body⟩
  rw [htb] at hbody
  simp only at hbody
  subst hbody
  simp [hser, finallyCleanup]

/-- A prediction table whose subject cell is a Python object `json.dumps`
rejects (e.g. a numpy scalar). -/
def dfObj : DataFrame :=
  { columns := ["subject", "predicate", "object"]
    rows := [[.obj "numpy.int64(5)", .str "http://example.org/knows", .str "http://example.org/b"]]
    dtypes := ["object", "object", "object"] }

/-- A run that reaches envelope assembly with the unserializable table. -/
def envObj : Env :=
  { stdin := .ok { raw := "{}" }
    initResult := .ok ctxEx
    parseInitial := .ok gOne
    processResult := .ok (some dfObj, gOne)
    queries := [] }

/-- The success envelope `main` assembles for `envObj` before `json.dumps`
rejects it. -/
def outObj : SuccessOutput :=
  { predictions_dataframe := dataframe_to_json (some dfObj)
    new_triples := [{ subject := .obj "numpy.int64(5)"
                      predicate := .str "http://example.org/knows"
                      object := .str "http://example.org/b" }]
    initial_graph := graph_to_json gOne (some 100)
    enriched_graph := graph_to_json gOne (some 1000)
    initial_triples := (graph_to_json gOne (some 100)).total_triples
    enriched_triples := (graph_to_json gOne (some 1000)).total_triples
    predictions_added := 1
    sparql_queries := []
    total_predictions := 1
    queries_executed := 0
    processing_successful := true }

/-- Witness for C10 at the concrete unserializable run. -/
theorem c10_serialization_failure_witness :
    (mainRun envObj).envelopes =
      [Envelope.failure "TypeError: Object is not JSON serializable"] ∧
    (mainRun envObj).exitCode ≠ 0 ∧
    ∀ o, Envelope.success o ∉ (mainRun envObj).envelopes :=
  c10_serialization_failure envObj { raw := "{}" } outObj rfl rfl rfl

end FullDataWrapper
